import Mathlib

/-!
Shallow embedding of the dashboard-building pipeline of
`build_dashboard_data.py` (ClickUp monitoring repository): the rule-based
task classifier `categorize`, the date resolver `best_date` / `ms_to_date`,
the per-project budget aggregator `build_project_budgets`, and the
per-assignee entry-building loop of `main`.

Modelling conventions:
* Python strings are Lean `String`; the `in` operator on strings is the
  substring test `hasSub`; `str.lower()` is `pyLower` (ASCII case
  mapping only — the keyword tables are already lower-case and no claim
  exercises non-ASCII upper-case letters); `str.strip()` is `pyStrip`
  (ASCII whitespace — Python also strips a few extra Unicode spaces,
  which no claim exercises).
* A JSON field that is absent or `null` is `Option.none`.  Per the
  producing fetcher (`extract_task_fields` in `fetch_task_estimates.py`)
  every key of a task record is always present but may be `null`, so
  `task.get(k, d)` is read as the raw optional value where the value can
  be `null`, and Python truthiness on such a value is `pyTruthy` /
  `pyOr` below (`None` and `""` are falsy).
* Machine floats are modelled by exact rationals `ℚ`; Python `round(x, 2)`
  is `round2` (round half to even at two decimals).  Binary
  representation error of floats is not modelled; every claim instance
  is exact in both systems.
* Numeric ClickUp identifiers are modelled by their decimal string form
  (the code always passes them through `str`).
* Operations that can raise an exception that the source does NOT catch
  are modelled in `Except Unit`: `.error ()` is an uncaught Python
  exception escaping the function.
-/

namespace ClickUp

/-- Substring containment: Python `pat in s` on strings. -/
def hasSub (s pat : String) : Bool :=
  go pat.toList s.toList
where
  go (pat l : List Char) : Bool :=
    match l with
    | [] => pat.isEmpty
    | _ :: rest => pat.isPrefixOf l || go pat rest

/-- Python truthiness of an optional string: `None` and `""` are falsy. -/
def pyTruthy : Option String → Bool
  | none => false
  | some s => !(s = "")

/-- Python `x or y` where `x` is an optional string and `y` a string. -/
def pyOr (x : Option String) (y : String) : String :=
  match x with
  | some s => if s = "" then y else s
  | none => y

/-- Python `str(x)` on an optional value: `str(None) = "None"`. -/
def pyStr : Option String → String
  | none => "None"
  | some s => s

/-- Python `(task.get(k) or "")`: absent, `null` and `""` all give `""`. -/
def orEmpty (o : Option String) : String := o.getD ""

/-- ASCII lower-casing of one character (`A`-`Z` only). -/
def lowerChar (c : Char) : Char :=
  if 65 ≤ c.toNat && c.toNat ≤ 90 then Char.ofNat (c.toNat + 32) else c

/-- Python `s.lower()` (ASCII case mapping). -/
def pyLower (s : String) : String := String.mk (s.toList.map lowerChar)

/-- ASCII whitespace, as stripped by `str.strip()` and `int()`. -/
def isPySpace (c : Char) : Bool :=
  c.toNat = 32 || (9 ≤ c.toNat && c.toNat ≤ 13)

/-- Python `s.strip()` (ASCII whitespace). -/
def pyStrip (s : String) : String :=
  String.mk (((s.toList.dropWhile isPySpace).reverse.dropWhile isPySpace).reverse)

/-- Python `s.startswith(pat)`. -/
def pyStartsWith (s pat : String) : Bool := pat.toList.isPrefixOf s.toList

/-- Floor of a rational, computed from the reduced numerator and
denominator (the `FloorRing` projection does not reduce in the
kernel). -/
def ratFloor (q : ℚ) : ℤ := Int.fdiv q.num q.den

/-- Round half to even to an integer: the rounding mode of Python
`round` on exact values. -/
def roundHalfEven (q : ℚ) : ℤ :=
  let n := ratFloor q
  let r := q - (n : ℚ)
  if r < 1/2 then n
  else if 1/2 < r then n + 1
  else if n % 2 = 0 then n else n + 1

/-- Python `round(x, 2)` on an exact rational. -/
def round2 (q : ℚ) : ℚ := (roundHalfEven (q * 100) : ℚ) / 100

/-! ### Python `int(...)` on a string -/

/-- Value of a nonempty all-digit character list. -/
def digitsToNat (cs : List Char) : Option Nat :=
  if cs.isEmpty then none
  else if cs.all Char.isDigit then
    some (cs.foldl (fun a c => a * 10 + (c.toNat - 48)) 0)
  else none

/-- Python `int(s)` for a decimal string: surrounding whitespace, one
optional sign, then digits; `none` models a `ValueError`.  (Underscore
digit grouping, which Python also accepts, is not modelled; no claim
depends on it.) -/
def pyInt (s : String) : Option Int :=
  let cs := ((s.toList.dropWhile isPySpace).reverse.dropWhile isPySpace).reverse
  match cs with
  | '+' :: rest => (digitsToNat rest).map fun n => (n : Int)
  | '-' :: rest => (digitsToNat rest).map fun n => -(n : Int)
  | rest => (digitsToNat rest).map fun n => (n : Int)

/-! ### Civil-calendar conversion (model of `datetime.fromtimestamp`
and `strftime`, with the local timezone taken to be UTC; the claims do
not depend on the timezone offset) -/

/-- Days since 1970-01-01 to `(year, month, day)` (standard proleptic
Gregorian conversion). -/
def civilFromDays (z0 : Int) : Int × Nat × Nat :=
  let z := z0 + 719468
  let era : Int := Int.fdiv z 146097
  let doe : Nat := (z - era * 146097).toNat
  let yoe : Nat := (doe - doe / 1460 + doe / 36524 - doe / 146096) / 365
  let y : Int := (yoe : Int) + era * 400
  let doy : Nat := doe - (365 * yoe + yoe / 4 - yoe / 100)
  let mp : Nat := (5 * doy + 2) / 153
  let d : Nat := doy - (153 * mp + 2) / 5 + 1
  let m : Nat := if mp < 10 then mp + 3 else mp - 9
  (if m ≤ 2 then y + 1 else y, m, d)

/-- `(year, month, day)` to days since 1970-01-01 (inverse of
`civilFromDays`; used for the day-of-year of the `%W` week number). -/
def daysFromCivil (y0 : Int) (m d : Nat) : Int :=
  let y := if m ≤ 2 then y0 - 1 else y0
  let era : Int := Int.fdiv y 400
  let yoe : Nat := (y - era * 400).toNat
  let mp : Nat := if 2 < m then m - 3 else m + 9
  let doy : Nat := (153 * mp + 2) / 5 + d - 1
  let doe : Nat := yoe * 365 + yoe / 4 - yoe / 100 + doy
  era * 146097 + (doe : Int) - 719468

/-- Zero-pad a number to two digits (`%m`, `%d`, `%W`). -/
def pad2 (n : Nat) : String :=
  if n < 10 then "0" ++ toString n else toString n

/-- `strftime("%Y-%m-%d")`. -/
def fmtDate (y : Int) (m d : Nat) : String :=
  toString y ++ "-" ++ pad2 m ++ "-" ++ pad2 d

/-- `strftime("%Y-%m")`. -/
def fmtMonth (y : Int) (m : Nat) : String :=
  toString y ++ "-" ++ pad2 m

/-- `strftime("%Y-W%W")`: week of year, Monday first, days before the
first Monday in week 00. -/
def fmtWeek (z : Int) (y : Int) : String :=
  let wday : Nat := ((z + 4).emod 7).toNat
  let yday : Nat := (z - daysFromCivil y 1 1).toNat
  let w : Nat := (yday + 7 - (if wday = 0 then 6 else wday - 1)) / 7
  toString y ++ "-W" ++ pad2 w

/-! ### Data model -/

/-- One member of a task's `assignees` array, as written by the fetcher
(`id` is a numeric ClickUp user id, modelled by its decimal string). -/
structure Assignee where
  id : Option String
  username : Option String
  email : Option String
  deriving DecidableEq, Repr

/-- The custom-field mapping extracted by the fetcher.  `none` on a
numeric field is an absent key or a `null` value; values that arrive as
numeric strings are modelled by their rational value. -/
structure CustomFields where
  budget : Option ℚ
  temps_vendu_jours : Option ℚ
  type_prestation : Option String
  date_debut : Option String
  date_fin : Option String
  deriving DecidableEq, Repr

/-- One record of `all_tasks_raw.json` (the fields the dashboard script
reads).  `custom_fields = none` models an empty custom-field dict, which
is falsy under `if not cf`. -/
structure Task where
  id : Option String
  name : Option String
  list_name : Option String
  folder_name : Option String
  due_date : Option String
  start_date : Option String
  date_created : Option String
  date_closed : Option String
  time_estimate : Option Int
  time_spent : Option Int
  assignees : List Assignee
  status : Option String
  folder_id : Option String
  list_id : Option String
  custom_fields : Option CustomFields
  deriving DecidableEq, Repr

/-! ### Category classifier: `categorize` -/

/-- Working string `name` of `categorize`: the lower-cased task name. -/
def taskNameLower (t : Task) : String :=
  pyLower (orEmpty t.name)

/-- Working string `list_name` of `categorize`. -/
def taskListLower (t : Task) : String :=
  pyLower (orEmpty t.list_name)

/-- Working string `folder_name` of `categorize`. -/
def taskFolderLower (t : Task) : String :=
  pyLower (orEmpty t.folder_name)

/-- Working string `combined` of `categorize`:
`name + " " + list_name + " " + folder_name`. -/
def taskCombined (t : Task) : String :=
  taskNameLower t ++ " " ++ taskListLower t ++ " " ++ taskFolderLower t

/-- Rule 1 keyword guard (Conges / Absences, on `combined`). -/
def gConges (t : Task) : Bool :=
  ["congé", "conge", "férié", "ferie", "absence",
   "jour férié", "amicale", "maladie", "arrêt de travail", "arrêt"].any
    fun k => hasSub (taskCombined t) k

/-- Rule 1 exact-name guard: `name.strip() in ("cp", "férié")`. -/
def gCongesExact (t : Task) : Bool :=
  pyStrip (taskNameLower t) = "cp" || pyStrip (taskNameLower t) = "férié"

/-- Rule 2 keyword guard (Commercial / Avant-vente, on `combined`). -/
def gCommercial (t : Task) : Bool :=
  ["avant vente", "avant-vente", "fid", "fidé",
   "prospect", "commercial", "prise de besoin"].any
    fun k => hasSub (taskCombined t) k

/-- Rule 2 exact-folder guard: `folder_name.strip() == "avant vente"`. -/
def gCommercialFolder (t : Task) : Bool :=
  pyStrip (taskFolderLower t) = "avant vente"

/-- Rule 3 keyword guard (Accompagnement SEO, on `combined`). -/
def gAccomp (t : Task) : Bool :=
  ["accompagnement", "régie", "temps accompagnement",
   "séminaire", "seminaire", "coaching", "atelier",
   "prépa séminaire", "préparation séminaire"].any
    fun k => hasSub (taskCombined t) k

/-- Rule 3 list-name guard: `"planification lucas" in list_name`. -/
def gAccompList (t : Task) : Bool :=
  hasSub (taskListLower t) "planification lucas"

/-- Rule 4 keyword guard (Formation, on the task NAME only). -/
def gFormationName (t : Task) : Bool :=
  ["formation", "wiki ", "wiki-", "tuto",
   "webinair", "webinar", "veille seo", "veille rattrapage"].any
    fun k => hasSub (taskNameLower t) k

/-- Rule 4 start-of-name guard: `name.strip().startswith("wiki")`. -/
def gFormationWiki (t : Task) : Bool :=
  pyStartsWith (pyStrip (taskNameLower t)) "wiki"

/-- Rule 5 keyword guard (Etude lexicale, on `combined`). -/
def gLexicale (t : Task) : Bool :=
  ["lexicale", "lex/bench", "étude lex", "etude lex",
   "benchmark", "bench concu", "mots clés", "mots-clés"].any
    fun k => hasSub (taskCombined t) k

/-- Rule 6 name-only override: `"restitution" in name`. -/
def gRestitution (t : Task) : Bool :=
  hasSub (taskNameLower t) "restitution"

/-- Rule 6 keyword guard (Audit, on `combined`). -/
def gAudit (t : Task) : Bool :=
  ["audit"].any fun k => hasSub (taskCombined t) k

/-- Rule 7 keyword guard (Redaction / Contenu, on `combined`). -/
def gRedaction (t : Task) : Bool :=
  ["rédaction", "redaction", "contenu", "article", "texte", "spin"].any
    fun k => hasSub (taskCombined t) k

/-- Rule 8 keyword guard (Netlinking, on `combined`). -/
def gNetlinking (t : Task) : Bool :=
  ["netlinking", "backlink", "affiliation", "vente de lien"].any
    fun k => hasSub (taskCombined t) k

/-- Rule 9 keyword guard (Maillage interne, on `combined`). -/
def gMaillage (t : Task) : Bool :=
  ["maillage"].any fun k => hasSub (taskCombined t) k

/-- Rule 10 keyword guard (Brief / Roadmap / Strategie, on `combined`). -/
def gBrief (t : Task) : Bool :=
  ["brief", "roadmap", "strateg", "lancement",
   "kick off", "kickoff", "kick-off", "discover"].any
    fun k => hasSub (taskCombined t) k

/-- Rule 11 keyword guard (Technique, on `combined`). -/
def gTechnique (t : Task) : Bool :=
  ["technique", "crawl", "migration", "indexation", "search console",
   "sitemap", "core web", "pagespeed", "vitesse", "recette", "preprod",
   "préprod", "mep", "mise en prod", "redirection", "implémentation",
   "implementation", "uat", "prelaunch", "pre-launch", "ct seo",
   "excel de reco", "amoa", "maquette", "refonte", "gsc", "install"].any
    fun k => hasSub (taskCombined t) k

/-- Rule 12 keyword guard (Reporting / Analytics, on `combined`). -/
def gReporting (t : Task) : Bool :=
  ["reporting", "analytics", "matomo", "dashboard", "rapport",
   "scoring", "pulse scoring", "chiffres", "kpi"].any
    fun k => hasSub (taskCombined t) k

/-- Rule 13 keyword guard (Reunion / Call / Email, on `combined`). -/
def gReunion (t : Task) : Bool :=
  ["réunion", "reunion", "call", "email", "mail", "échange",
   "echange", "point projet", "point équipe", "point client",
   "point hebdo", "point mensuel", "point du lundi", "points projets",
   "point orga", "point netlinking", "point tool",
   "restitution", "relance", "message", "retour", "discussion",
   "debrief", "visio", "prez", "prépa réunion",
   "bonsoir", "copil", "entretien"].any
    fun k => hasSub (taskCombined t) k

/-- Rule 14 keyword guard (Gestion / Planning, on `combined`). -/
def gGestion (t : Task) : Bool :=
  ["planning", "gestion", "pilotage", "orga", "clickup",
   "rétroplanning", "facture", "devis", "admin", "ré-orga",
   "linkedin", "pinterest", "youtube", "visuels", "style",
   "panning", "pllaning", "forecast", "fiche de poste",
   "accueil", "déménagement", "afterwork", "repas"].any
    fun k => hasSub (taskCombined t) k

/-- Rule 15 keyword guard (Operationnel client, on `combined`). -/
def gOperationnel (t : Task) : Bool :=
  ["commande cuve", "cuve expert", "cuve-expert",
   "sites d\u0027édition", "youdrone"].any
    fun k => hasSub (taskCombined t) k

/-- The ordered, short-circuiting classifier of `build_dashboard_data.py`
(lines 54-188): first matching rule wins, default `Autre`. -/
def categorize (t : Task) : String :=
  if gConges t then "Conges / Absences"
  else if gCongesExact t then "Conges / Absences"
  else if gCommercial t then "Commercial / Avant-vente"
  else if gCommercialFolder t then "Commercial / Avant-vente"
  else if gAccomp t then "Accompagnement SEO"
  else if gAccompList t then "Accompagnement SEO"
  else if gFormationName t then "Formation"
  else if gFormationWiki t then "Formation"
  else if gLexicale t then "Etude lexicale"
  else if gRestitution t then "Reunion / Call / Email"
  else if gAudit t then "Audit"
  else if gRedaction t then "Redaction / Contenu"
  else if gNetlinking t then "Netlinking"
  else if gMaillage t then "Maillage interne"
  else if gBrief t then "Brief / Roadmap / Strategie"
  else if gTechnique t then "Technique"
  else if gReporting t then "Reporting / Analytics"
  else if gReunion t then "Reunion / Call / Email"
  else if gGestion t then "Gestion / Planning"
  else if gOperationnel t then "Operationnel client"
  else "Autre"

/-- The fixed sixteen-label category set of the spec. -/
def categoryLabels : List String :=
  ["Conges / Absences", "Commercial / Avant-vente", "Accompagnement SEO",
   "Formation", "Etude lexicale", "Audit", "Reunion / Call / Email",
   "Redaction / Contenu", "Netlinking", "Maillage interne",
   "Brief / Roadmap / Strategie", "Technique", "Reporting / Analytics",
   "Gestion / Planning", "Operationnel client", "Autre"]

/-- Disjunction of every rule guard of `categorize`: true exactly when
some rule matches the task. -/
def anyRuleMatches (t : Task) : Bool :=
  gConges t || gCongesExact t || gCommercial t || gCommercialFolder t ||
  gAccomp t || gAccompList t || gFormationName t || gFormationWiki t ||
  gLexicale t || gRestitution t || gAudit t || gRedaction t ||
  gNetlinking t || gMaillage t || gBrief t || gTechnique t ||
  gReporting t || gReunion t || gGestion t || gOperationnel t

/-! ### Date resolver: `ms_to_date` and `best_date`

`datetime.fromtimestamp(int(ms_str) / 1000)` under the `except
(ValueError, OSError)` of the source.  Two CPython exceptions escape
that handler and are modelled as `.error ()`:
* `OverflowError` from `int / 1000` when the true quotient exceeds the
  double range (modelled by the threshold `|n| ≥ 1000 · 2 ^ 1024`; the
  exact boundary is half an ulp below `2 ^ 1024`, which no claim
  exercises);
* `OverflowError` from `fromtimestamp` when the seconds value does not
  fit a 64-bit `time_t` (float spacing at that magnitude is likewise
  immaterial to the claims).
A resulting calendar year outside `1..9999` raises `ValueError` (from
the `datetime` constructor) or `OSError` (from `localtime`), both
caught, hence absent.  -/

/-- `datetime.fromtimestamp(n / 1000)`: `.ok (some secs)` is a datetime
at `secs` whole seconds since the epoch, `.ok none` a caught
`ValueError` / `OSError`, `.error ()` an uncaught `OverflowError`. -/
def fromtimestampMs (n : Int) : Except Unit (Option Int) :=
  if 1000 * (2 ^ 1024 : Nat) ≤ n.natAbs then .error ()
  else
    let secs := Int.fdiv n 1000
    if secs < -(((2 ^ 63 : Nat) : Int)) || ((2 ^ 63 : Nat) : Int) ≤ secs then .error ()
    else if 1 ≤ (civilFromDays (Int.fdiv secs 86400)).1 &&
            (civilFromDays (Int.fdiv secs 86400)).1 ≤ 9999 then .ok (some secs)
    else .ok none

/-- The date strings derived from a timestamp (the Python dict also
carries the raw `datetime` under key `"dt"`, which nothing downstream
reads; it is omitted here). -/
structure DateInfo where
  date : String
  month : String
  week : String
  deriving DecidableEq, Repr

/-- Format a seconds timestamp as the `date` / `month` / `week` dict of
`ms_to_date`. -/
def mkDateInfo (secs : Int) : DateInfo :=
  let z := Int.fdiv secs 86400
  let c := civilFromDays z
  { date := fmtDate c.1 c.2.1 c.2.2
    month := fmtMonth c.1 c.2.1
    week := fmtWeek z c.1 }

/-- `ms_to_date` of `build_dashboard_data.py` (lines 25-39). -/
def ms_to_date (ms_str : Option String) : Except Unit (Option DateInfo) :=
  if !pyTruthy ms_str then .ok none
  else
    match pyInt (orEmpty ms_str) with
    | none => .ok none
    | some n => (fromtimestampMs n).map fun s => s.map mkDateInfo

/-- `best_date` of `build_dashboard_data.py` (lines 42-51): `due_date`
first, then `start_date`; `date_created` is never read. -/
def best_date (t : Task) : Except Unit (Option DateInfo) :=
  match ms_to_date t.due_date with
  | .error e => .error e
  | .ok (some info) => .ok (some info)
  | .ok none => ms_to_date t.start_date

/-! ### Association-list model of a Python dict
(assignment replaces an existing binding in place, otherwise appends;
iteration follows key-insertion order). -/

/-- Dict lookup. -/
def alLookup {α β : Type} [DecidableEq α] : List (α × β) → α → Option β
  | [], _ => none
  | (k', v) :: rest, k => if k' = k then some v else alLookup rest k

/-- Dict assignment `m[k] = v`. -/
def alInsert {α β : Type} [DecidableEq α] : List (α × β) → α → β → List (α × β)
  | [], k, v => [(k, v)]
  | (k', v') :: rest, k, v =>
      if k' = k then (k, v) :: rest else (k', v') :: alInsert rest k v

/-! ### Budget aggregator: `build_project_budgets` -/

/-- The default daily rate (`DEFAULT_TJM = 690`). -/
def DEFAULT_TJM : ℚ := 690

/-- One `list_budgets` record (step 1 of `build_project_budgets`). -/
structure ListBudget where
  folder_id : String
  list_id : String
  list_name : Option String
  budget : ℚ
  temps_vendu_jours : ℚ
  type_prestation : String
  date_debut : Option String
  date_fin : Option String
  deriving DecidableEq, Repr

/-- One `prestations` line item. -/
structure Prestation where
  list_name : Option String
  budget : ℚ
  temps_vendu_jours : ℚ
  type_prestation : String
  date_debut : Option String
  date_fin : Option String
  deriving DecidableEq, Repr

/-- A `folder_budgets` record before the `tjm` pass. -/
structure FolderAcc where
  folder_id : String
  folder_name : String
  budget : ℚ
  temps_vendu_jours : ℚ
  prestations : List Prestation
  deriving DecidableEq, Repr

/-- A `folder_budgets` record after the `tjm` / rounding pass (the
output shape of `build_project_budgets`). -/
structure FolderBudget where
  folder_id : String
  folder_name : String
  budget : ℚ
  temps_vendu_jours : ℚ
  tjm : ℚ
  prestations : List Prestation
  deriving DecidableEq, Repr

/-- The `list_budgets[list_id] = {...}` record of a qualifying task.
`float(x) if x else 0` coincides with `Option.getD 0` because a falsy
numeric value is `null` or `0`. -/
def mkListBudget (t : Task) (cf : CustomFields) : ListBudget :=
  { folder_id := pyStr t.folder_id
    list_id := if pyTruthy t.list_id then pyStr t.list_id else ""
    list_name := t.list_name
    budget := cf.budget.getD 0
    temps_vendu_jours := cf.temps_vendu_jours.getD 0
    type_prestation := cf.type_prestation.getD ""
    date_debut := cf.date_debut
    date_fin := cf.date_fin }

/-- One iteration of the step-1 scan: skip tasks whose name lacks
`"infos globales"`, with an empty custom-field dict, with both numeric
fields `null`, or with a falsy `folder_id`; otherwise assign into
`list_budgets` keyed by the RAW `list_id` (possibly `none`). -/
def listBudgetsStep (m : List (Option String × ListBudget)) (t : Task) :
    List (Option String × ListBudget) :=
  if !hasSub (pyLower (orEmpty t.name)) "infos globales" then m
  else
    match t.custom_fields with
    | none => m
    | some cf =>
      if cf.budget = none && cf.temps_vendu_jours = none then m
      else if !pyTruthy t.folder_id then m
      else alInsert m t.list_id (mkListBudget t cf)

/-- Step 1 of `build_project_budgets` (lines 200-224): the per-list
budget dict. -/
def collectListBudgets (tasks : List Task) : List (Option String × ListBudget) :=
  tasks.foldl listBudgetsStep []

/-- `datetime.fromtimestamp(int(x) / 1000).strftime("%Y-%m-%d")` under
`except (ValueError, OSError): pass` — the ISO conversion of
`date_debut` / `date_fin` (same uncaught-`OverflowError` caveat as
`ms_to_date`). -/
def msToIso (o : Option String) : Except Unit (Option String) :=
  if !pyTruthy o then .ok none
  else
    match pyInt (orEmpty o) with
    | none => .ok none
    | some n =>
      (fromtimestampMs n).map fun s => s.map fun secs =>
        let c := civilFromDays (Int.fdiv secs 86400)
        fmtDate c.1 c.2.1 c.2.2

/-- One iteration of the step-2 aggregation over `list_budgets.values()`:
create the folder record on first sight, add the list budget and sold
days, convert the two timestamps, append the `prestation` line. -/
def folderAccStep (fns : List (String × String))
    (m : List (String × FolderAcc)) (lb : ListBudget) :
    Except Unit (List (String × FolderAcc)) :=
  let fid := lb.folder_id
  let acc :=
    match alLookup m fid with
    | some a => a
    | none =>
      { folder_id := fid
        folder_name := (alLookup fns fid).getD ""
        budget := 0
        temps_vendu_jours := 0
        prestations := [] }
  match msToIso lb.date_debut with
  | .error e => .error e
  | .ok debutIso =>
    match msToIso lb.date_fin with
    | .error e => .error e
    | .ok finIso =>
      .ok (alInsert m fid
        { acc with
          budget := acc.budget + lb.budget
          temps_vendu_jours := acc.temps_vendu_jours + lb.temps_vendu_jours
          prestations := acc.prestations ++
            [{ list_name := lb.list_name
               budget := lb.budget
               temps_vendu_jours := lb.temps_vendu_jours
               type_prestation := lb.type_prestation
               date_debut := debutIso
               date_fin := finIso }] })

/-- Step 2 of `build_project_budgets` (lines 227-262): group by
`folder_id`, summing budgets and sold days. -/
def aggregateFolders (fns : List (String × String)) (tasks : List Task) :
    Except Unit (List (String × FolderAcc)) :=
  ((collectListBudgets tasks).map Prod.snd).foldlM (folderAccStep fns) []

/-- Step 3 of `build_project_budgets` (lines 264-271): `tjm` when both
sums are strictly positive (sold days tested first), else the default
rate; then round both sums to two decimals. -/
def applyTjm (acc : FolderAcc) : FolderBudget :=
  { folder_id := acc.folder_id
    folder_name := acc.folder_name
    budget := round2 acc.budget
    temps_vendu_jours := round2 acc.temps_vendu_jours
    tjm :=
      if 0 < acc.temps_vendu_jours && 0 < acc.budget then
        round2 (acc.budget / acc.temps_vendu_jours)
      else DEFAULT_TJM
    prestations := acc.prestations }

/-- `build_project_budgets` of `build_dashboard_data.py`
(lines 194-273). -/
def build_project_budgets (tasks : List Task) (fns : List (String × String)) :
    Except Unit (List (String × FolderBudget)) :=
  match aggregateFolders fns tasks with
  | .error e => .error e
  | .ok m => .ok (m.map fun kv => (kv.1, applyTjm kv.2))

/-! ### Entry builder: the per-task loop of `main` (lines 295-348) -/

/-- One output entry (one task × assignee pair). -/
structure Entry where
  user : String
  user_id : Option String
  project : String
  folder_id : String
  list_name : Option String
  task : Option String
  task_id : Option String
  hours : ℚ
  spent_hours : ℚ
  date : String
  month : String
  week : String
  status : Option String
  closed : Bool
  category : String
  source : String
  deriving DecidableEq, Repr

/-- Why a task produced no entries. -/
inductive SkipReason where
  | noEstimate
  | noDate
  | noAssignee
  deriving DecidableEq, Repr

/-- Outcome of the loop body for one task. -/
inductive TaskResult where
  | skip : SkipReason → TaskResult
  | entries : List Entry → TaskResult
  deriving DecidableEq, Repr

/-- `assignee.get("username") or assignee.get("email") or
str(assignee.get("id"))`. -/
def displayKey (a : Assignee) : String :=
  pyOr a.username (pyOr a.email (pyStr a.id))

/-- Folder display name after the lookup-table override: the table
entry when `folder_id` is truthy and present in the table, else the
task's own (nullable) `folder_name`. -/
def resolvedFolderName (fns : List (String × String)) (t : Task) : Option String :=
  if pyTruthy t.folder_id then
    match alLookup fns (pyStr t.folder_id) with
    | some n => some n
    | none => t.folder_name
  else t.folder_name

/-- The entry appended for one assignee of an eligible task. -/
def mkEntry (fns : List (String × String)) (t : Task) (di : DateInfo)
    (a : Assignee) : Entry :=
  { user := displayKey a
    user_id := a.id
    project := pyOr (resolvedFolderName fns t) "(sans dossier)"
    folder_id := if pyTruthy t.folder_id then pyStr t.folder_id else ""
    list_name := t.list_name
    task := t.name
    task_id := t.id
    hours := round2 (((t.time_estimate.getD 0 : Int) : ℚ) / 3600000)
    spent_hours := round2 (((t.time_spent.getD 0 : Int) : ℚ) / 3600000)
    date := di.date
    month := di.month
    week := di.week
    status := t.status
    closed := t.date_closed.isSome
    category := categorize t
    source := "time_estimate" }

/-- The loop body of `main` for one task: the three exclusion gates in
order, then one entry per assignee. -/
def taskStep (fns : List (String × String)) (t : Task) :
    Except Unit TaskResult :=
  if t.time_estimate.getD 0 ≤ 0 then .ok (.skip .noEstimate)
  else
    match best_date t with
    | .error e => .error e
    | .ok none => .ok (.skip .noDate)
    | .ok (some di) =>
      if t.assignees.isEmpty then .ok (.skip .noAssignee)
      else .ok (.entries (t.assignees.map (mkEntry fns t di)))

/-- Entries contributed by one task. -/
def toEntries : TaskResult → List Entry
  | .skip _ => []
  | .entries es => es

/-- The three skip counters of `main`. -/
structure Counters where
  skipped_no_estimate : Nat
  skipped_no_date : Nat
  skipped_no_assignee : Nat
  deriving DecidableEq, Repr

/-- Increment the counter of one skip reason. -/
def bumpCounter (c : Counters) : SkipReason → Counters
  | .noEstimate => { c with skipped_no_estimate := c.skipped_no_estimate + 1 }
  | .noDate => { c with skipped_no_date := c.skipped_no_date + 1 }
  | .noAssignee => { c with skipped_no_assignee := c.skipped_no_assignee + 1 }

/-- Stable insertion keeping entries of equal date in arrival order. -/
def insertByDate (e : Entry) : List Entry → List Entry
  | [] => [e]
  | x :: xs => if e.date < x.date then e :: x :: xs else x :: insertByDate e xs

/-- `entries.sort(key=lambda e: e["date"])` (stable, ascending). -/
def sortByDate (es : List Entry) : List Entry :=
  es.foldl (fun acc e => insertByDate e acc) []

/-- One iteration of the entry loop: stop on an escaping exception,
bump the counter of a skipped task, append the entries of an eligible
one. -/
def buildEntriesStep (fns : List (String × String))
    (st : List Entry × Counters) (t : Task) :
    Except Unit (List Entry × Counters) :=
  match taskStep fns t with
  | .error e => .error e
  | .ok (.skip reason) => .ok (st.1, bumpCounter st.2 reason)
  | .ok (.entries es) => .ok (st.1 ++ es, st.2)

/-- The whole entry-building loop of `main`: entries in task order then
assignee order, finally sorted by date; plus the skip counters. -/
def buildEntries (fns : List (String × String)) (tasks : List Task) :
    Except Unit (List Entry × Counters) :=
  match tasks.foldlM (buildEntriesStep fns) ([], ⟨0, 0, 0⟩) with
  | .error e => .error e
  | .ok st => .ok (sortByDate st.1, st.2)

/-! ### Concrete fixtures (the spec's worked examples) -/

/-- A task record with every field absent / `null` / empty. -/
def exBase : Task :=
  { id := none, name := none, list_name := none, folder_name := none,
    due_date := none, start_date := none, date_created := none, date_closed := none,
    time_estimate := none, time_spent := none, assignees := [], status := none,
    folder_id := none, list_id := none, custom_fields := none }

/-- The date info of epoch-millisecond timestamp `1696118400000`
(2023-10-01 UTC). -/
def exDi : DateInfo := { date := "2023-10-01", month := "2023-10", week := "2023-W39" }

/-- An assignee with a user id and a username. -/
def exA (i u : String) : Assignee := { id := some i, username := some u, email := none }

/-- A task whose name matches no classifier rule. -/
def exNoMatchTask : Task := { exBase with name := some "zzz" }

/-- The spec's precedence example: "Restitution audit client" with empty
list and folder names. -/
def exRestitutionTask : Task := { exBase with
  name := some "Restitution audit client", list_name := some "", folder_name := some "" }

/-- The spec's scope-isolation example: "Kickoff" in folder
"SLASHR Formation Interne". -/
def exKickoffTask : Task := { exBase with
  name := some "Kickoff", list_name := some "",
  folder_name := some "SLASHR Formation Interne" }

/-- The spec's fan-out example: 2h estimate, three assignees. -/
def exFanoutTask : Task := { exBase with
  name := some "zzz", time_estimate := some 7200000,
  due_date := some "1696118400000",
  assignees := [exA "1" "u1", exA "2" "u2", exA "3" "u3"] }

/-- The three entries the fan-out example produces. -/
def exFanoutEs : List Entry := exFanoutTask.assignees.map (mkEntry [] exFanoutTask exDi)

/-- A task with only `date_created` set (spec: resolves to absent). -/
def exCreatedOnlyTask : Task := { exBase with
  time_estimate := some 100, date_created := some "1696118400000" }

/-- A task with both `due_date` and `start_date` set. -/
def exDueStartTask : Task := { exBase with
  due_date := some "1696118400000", start_date := some "1700000000000" }

/-- Custom fields: budget 10000, sold days 10. -/
def exCfA : CustomFields := { budget := some 10000, temps_vendu_jours := some 10,
                              type_prestation := some "SEO", date_debut := none, date_fin := none }

/-- Custom fields: budget 5000, sold days 5. -/
def exCfB : CustomFields := { budget := some 5000, temps_vendu_jours := some 5,
                              type_prestation := none, date_debut := none, date_fin := none }

/-- First "INFOS GLOBALES" task of the budget-aggregation example
(folder F, list L1). -/
def exInfosA : Task := { exBase with
  name := some "INFOS GLOBALES A", folder_id := some "F",
  list_id := some "L1", list_name := some "List 1", custom_fields := some exCfA }

/-- Second "INFOS GLOBALES" task of the budget-aggregation example
(folder F, list L2). -/
def exInfosB : Task := { exBase with
  name := some "infos globales b", folder_id := some "F",
  list_id := some "L2", list_name := some "List 2", custom_fields := some exCfB }

/-- The folder budget the aggregation example produces. -/
def exFB6 : FolderBudget :=
  { folder_id := "F", folder_name := "Client F", budget := 15000,
    temps_vendu_jours := 15, tjm := 1000,
    prestations :=
      [{ list_name := some "List 1", budget := 10000, temps_vendu_jours := 10,
         type_prestation := "SEO", date_debut := none, date_fin := none },
       { list_name := some "List 2", budget := 5000, temps_vendu_jours := 5,
         type_prestation := "", date_debut := none, date_fin := none }] }

/-- Two qualifying tasks sharing list id L (for last-write-wins). -/
def exDupTask1 : Task := { exBase with
  name := some "INFOS GLOBALES X", folder_id := some "F1",
  list_id := some "L", custom_fields := some exCfA }

/-- The later task with the same list id L. -/
def exDupTask2 : Task := { exBase with
  name := some "INFOS GLOBALES Y", folder_id := some "F9",
  list_id := some "L", custom_fields := some exCfB }

/-- Custom fields with a budget but no sold days (default-rate case). -/
def exCf7 : CustomFields := { budget := some 5000, temps_vendu_jours := none,
                              type_prestation := none, date_debut := none, date_fin := none }

/-- A qualifying task with budget 5000 and zero sold days. -/
def exT7 : Task := { exBase with
  name := some "INFOS GLOBALES", folder_id := some "G",
  list_id := some "L9", custom_fields := some exCf7 }

/-- The aggregated (pre-`tjm`) folder record of `exT7`. -/
def exAcc7 : FolderAcc :=
  { folder_id := "G", folder_name := "", budget := 5000, temps_vendu_jours := 0,
    prestations :=
      [{ list_name := none, budget := 5000, temps_vendu_jours := 0,
         type_prestation := "", date_debut := none, date_fin := none }] }

/-- An eligible task whose single assignee has a username. -/
def exKeyTask : Task := { exBase with
  name := some "zzz", time_estimate := some 3600000,
  due_date := some "1696118400000",
  assignees := [{ id := some "7", username := some "alice", email := none }] }

/-- The entries of `exKeyTask`. -/
def exKeyEs : List Entry := exKeyTask.assignees.map (mkEntry [] exKeyTask exDi)

/-- An eligible task whose single assignee has no id, username or
email. -/
def exNoIdTask : Task := { exBase with
  name := some "zzz", time_estimate := some 3600000,
  due_date := some "1696118400000",
  assignees := [{ id := none, username := none, email := none }] }

/-- The entry of `exNoIdTask`. -/
def exNoIdEntry : Entry :=
  mkEntry [] exNoIdTask exDi { id := none, username := none, email := none }

/-- A qualifying task in folder F1 with no list id. -/
def exNoList1 : Task := { exBase with
  name := some "INFOS GLOBALES A", folder_id := some "F1",
  list_id := none, custom_fields := some exCfA }

/-- A later qualifying task in folder F2, also with no list id. -/
def exNoList2 : Task := { exBase with
  name := some "INFOS GLOBALES B", folder_id := some "F2",
  list_id := none, custom_fields := some exCfB }

/-- The single folder budget surviving the shared-absent-key collision
(folder F2 only). -/
def exFB10 : FolderBudget :=
  { folder_id := "F2", folder_name := "", budget := 5000,
    temps_vendu_jours := 5, tjm := 1000,
    prestations :=
      [{ list_name := none, budget := 5000, temps_vendu_jours := 5,
         type_prestation := "", date_debut := none, date_fin := none }] }

/-! ### Helper lemmas -/

set_option maxRecDepth 4000
set_option exponentiation.threshold 1100

/-- An if-then-else of two members of a list is a member. -/
theorem mem_ite_of_mem {b : Bool} {x y : String} {L : List String}
    (hx : x ∈ L) (hy : y ∈ L) : (if b = true then x else y) ∈ L := by
  cases b
  · simpa using hy
  · simpa using hx

/-- An if-then-else of two strings differing from `z` differs from `z`. -/
theorem ite_ne_of_branches {b : Bool} {x y z : String}
    (hx : x ≠ z) (hy : y ≠ z) : (if b = true then x else y) ≠ z := by
  cases b
  · simpa using hy
  · simpa using hx

/-- `pyOr` of a falsy left operand is its right operand. -/
theorem pyOr_of_falsy {x : Option String} {y : String}
    (h : pyTruthy x = false) : pyOr x y = y := by
  cases x with
  | none => rfl
  | some s =>
    simp [pyTruthy] at h
    simp [pyOr, h]

/-- Assigning a key and looking it up yields the assigned value. -/
theorem alLookup_alInsert_self {α β : Type} [DecidableEq α]
    (m : List (α × β)) (k : α) (v : β) :
    alLookup (alInsert m k v) k = some v := by
  induction m with
  | nil => simp [alInsert, alLookup]
  | cons kv rest ih =>
    by_cases h : kv.1 = k
    · simp [alInsert, alLookup, h]
    · simp [alInsert, alLookup, h, ih]

/-- Lookup commutes with mapping a function over the values. -/
theorem alLookup_map_value {α β γ : Type} [DecidableEq α]
    (f : β → γ) (m : List (α × β)) (k : α) :
    alLookup (m.map fun kv => (kv.1, f kv.2)) k = (alLookup m k).map f := by
  induction m with
  | nil => simp [alLookup]
  | cons kv rest ih =>
    by_cases h : kv.1 = k
    · simp [alLookup, h]
    · simp [alLookup, h, ih]

/-- A task that reaches the entries branch passed both gates and emits
one entry per assignee, in order. -/
theorem taskStep_entries_shape {fns : List (String × String)} {t : Task}
    {es : List Entry} (h : taskStep fns t = .ok (.entries es)) :
    ∃ di, best_date t = .ok (some di) ∧ es = t.assignees.map (mkEntry fns t di) := by
  unfold taskStep at h
  split at h
  · simp at h
  · split at h
    next => simp at h
    next => simp at h
    next di heq =>
      split at h
      · simp at h
      · refine ⟨di, heq, ?_⟩
        simpa using h.symm

/-! ### Claim theorems -/

/-- C1: `categorize` is total: for every task record it returns exactly
one label from the fixed sixteen-label category set, and when no rule
matches it returns `Autre`. -/
theorem categorize_totality (t : Task) :
    categorize t ∈ categoryLabels ∧
    (anyRuleMatches t = false → categorize t = "Autre") := by
  constructor
  · unfold categorize
    repeat' refine mem_ite_of_mem (by decide) ?_
    decide
  · intro h
    simp only [anyRuleMatches, Bool.or_eq_false_iff, and_assoc] at h
    obtain ⟨h1, h2, h3, h4, h5, h6, h7, h8, h9, h10,
      h11, h12, h13, h14, h15, h16, h17, h18, h19, h20⟩ := h
    simp only [categorize, h1, h2, h3, h4, h5, h6, h7, h8, h9, h10,
      h11, h12, h13, h14, h15, h16, h17, h18, h19, h20,
      Bool.false_eq_true, if_false]

/-- Witness for C1: a task matching no rule gets a label of the set,
namely `Autre`. -/
theorem categorize_totality_witness :
    categorize exNoMatchTask ∈ categoryLabels ∧ categorize exNoMatchTask = "Autre" :=
  ⟨(categorize_totality exNoMatchTask).1,
   (categorize_totality exNoMatchTask).2 (by decide)⟩

/-- C2: rule precedence — when no rule of precedence higher than rule 6
matches and the lowercased name contains "restitution", the task is
`Reunion / Call / Email` and never `Audit`, even though the combined
string may contain "audit". -/
theorem restitution_overrides_audit (t : Task)
    (h1 : gConges t = false) (h2 : gCongesExact t = false)
    (h3 : gCommercial t = false) (h4 : gCommercialFolder t = false)
    (h5 : gAccomp t = false) (h6 : gAccompList t = false)
    (h7 : gFormationName t = false) (h8 : gFormationWiki t = false)
    (h9 : gLexicale t = false)
    (hr : hasSub (taskNameLower t) "restitution" = true) :
    categorize t = "Reunion / Call / Email" ∧ categorize t ≠ "Audit" := by
  have hcat : categorize t = "Reunion / Call / Email" := by
    simp only [categorize, h1, h2, h3, h4, h5, h6, h7, h8, h9,
      Bool.false_eq_true, if_false, gRestitution, hr, if_true]
  exact ⟨hcat, by rw [hcat]; decide⟩

/-- Witness for C2: "Restitution audit client" (empty list and folder
names) classifies as `Reunion / Call / Email`, not `Audit`, although
its combined string contains "audit". -/
theorem restitution_overrides_audit_witness :
    hasSub (taskCombined exRestitutionTask) "audit" = true ∧
    categorize exRestitutionTask = "Reunion / Call / Email" ∧
    categorize exRestitutionTask ≠ "Audit" :=
  ⟨by decide,
   restitution_overrides_audit exRestitutionTask (by decide) (by decide) (by decide)
     (by decide) (by decide) (by decide) (by decide) (by decide) (by decide) (by decide)⟩

/-- C3: the Formation rule reads the task name only — a task whose OWN
name triggers neither Formation guard is never classified `Formation`
(whatever its list or folder names), and the "Kickoff" task in folder
"SLASHR Formation Interne" classifies as `Brief / Roadmap / Strategie`. -/
theorem formation_name_only :
    (∀ t : Task, gConges t = false → gCongesExact t = false →
      gCommercial t = false → gCommercialFolder t = false →
      gAccomp t = false → gAccompList t = false →
      gFormationName t = false → gFormationWiki t = false →
      categorize t ≠ "Formation") ∧
    categorize exKickoffTask = "Brief / Roadmap / Strategie" := by
  constructor
  · intro t h1 h2 h3 h4 h5 h6 h7 h8
    simp only [categorize, h1, h2, h3, h4, h5, h6, h7, h8,
      Bool.false_eq_true, if_false]
    repeat' refine ite_ne_of_branches (by decide) ?_
    decide
  · decide

/-- Witness for C3: the "Kickoff" task itself. -/
theorem formation_name_only_witness :
    categorize exKickoffTask ≠ "Formation" ∧
    categorize exKickoffTask = "Brief / Roadmap / Strategie" :=
  ⟨formation_name_only.1 exKickoffTask (by decide) (by decide) (by decide) (by decide)
     (by decide) (by decide) (by decide) (by decide),
   formation_name_only.2⟩

/-- C4: fan-out — an eligible task with N assignees yields exactly N
entries, each carrying the identical full task-level
`round(time_estimate / 3_600_000, 2)` hours value (the estimate is not
divided among assignees). -/
theorem fanout_full_estimate (fns : List (String × String)) (t : Task)
    (es : List Entry) (h : taskStep fns t = .ok (.entries es)) :
    es.length = t.assignees.length ∧
    ∀ e ∈ es, e.hours = round2 (((t.time_estimate.getD 0 : Int) : ℚ) / 3600000) := by
  obtain ⟨di, _, rfl⟩ := taskStep_entries_shape h
  refine ⟨by simp, ?_⟩
  intro e he
  obtain ⟨a, _, rfl⟩ := List.mem_map.mp he
  rfl

/-- Witness for C4: `time_estimate = 7_200_000` and 3 assignees give
exactly 3 entries, each with `hours = 2`. -/
theorem fanout_full_estimate_witness :
    exFanoutEs.length = 3 ∧ ∀ e ∈ exFanoutEs, e.hours = 2 := by
  have h := fanout_full_estimate [] exFanoutTask exFanoutEs (by with_unfolding_all rfl)
  refine ⟨h.1.trans (by rfl), ?_⟩
  intro e he
  rw [h.2 e he]
  with_unfolding_all rfl

/-- C5: date priority — `best_date` never reads `date_created`; a
parseable `due_date` wins; otherwise `start_date` is consulted; when
neither parses the task resolves to absent and produces no entry. -/
theorem date_priority (t : Task) (c : Option String) (fns : List (String × String)) :
    best_date { t with date_created := c } = best_date t ∧
    (∀ i, ms_to_date t.due_date = .ok (some i) → best_date t = .ok (some i)) ∧
    (ms_to_date t.due_date = .ok none → best_date t = ms_to_date t.start_date) ∧
    (ms_to_date t.due_date = .ok none → ms_to_date t.start_date = .ok none →
      best_date t = .ok none ∧ ∃ r, taskStep fns t = .ok (.skip r)) := by
  refine ⟨rfl, ?_, ?_, ?_⟩
  · intro i hi
    simp [best_date, hi]
  · intro hd
    simp [best_date, hd]
  · intro hd hs
    have hbd : best_date t = .ok none := by simp [best_date, hd, hs]
    refine ⟨hbd, ?_⟩
    by_cases hest : t.time_estimate.getD 0 ≤ 0
    · exact ⟨.noEstimate, by simp [taskStep, hest]⟩
    · exact ⟨.noDate, by simp [taskStep, hest, hbd]⟩

/-- Witness for C5: a task with only `date_created` resolves to absent
and is skipped; a task with both dates uses `due_date`. -/
theorem date_priority_witness :
    (best_date exCreatedOnlyTask = .ok none ∧
      ∃ r, taskStep [] exCreatedOnlyTask = .ok (.skip r)) ∧
    best_date exDueStartTask = .ok (some exDi) :=
  ⟨(date_priority exCreatedOnlyTask (some "1696118400000") []).2.2.2 rfl rfl,
   (date_priority exDueStartTask none []).2.1 exDi (by with_unfolding_all rfl)⟩

/-- C6: `build_project_budgets` keys the per-list scan by the raw
`list_id` with last-write-wins (a later qualifying task fully replaces,
not sums, an earlier one under the same key), then sums budgets and
sold days per folder: the two-list example yields budget 15000, sold
days 15, tjm 1000. -/
theorem budget_lww_and_folder_sums :
    (∀ (tasks : List Task) (t : Task) (cf : CustomFields),
      hasSub (pyLower (orEmpty t.name)) "infos globales" = true →
      t.custom_fields = some cf →
      (cf.budget = none && cf.temps_vendu_jours = none) = false →
      pyTruthy t.folder_id = true →
      alLookup (collectListBudgets (tasks ++ [t])) t.list_id =
        some (mkListBudget t cf)) ∧
    (build_project_budgets [exInfosA, exInfosB] [("F", "Client F")] = .ok [("F", exFB6)] ∧
      exFB6.budget = 15000 ∧ exFB6.temps_vendu_jours = 15 ∧ exFB6.tjm = 1000) := by
  constructor
  · intro tasks t cf hname hcf hbt hfid
    have hstep : collectListBudgets (tasks ++ [t]) =
        listBudgetsStep (collectListBudgets tasks) t := by
      simp [collectListBudgets, List.foldl_append]
    rw [hstep]
    simp [listBudgetsStep, hname, hcf, hbt, hfid, alLookup_alInsert_self]
  · exact ⟨by with_unfolding_all rfl, rfl, rfl, rfl⟩

/-- Witness for C6: two qualifying tasks sharing list id L — the later
record alone survives, with its own budget 5000 (not the 15000 a sum
would give). -/
theorem budget_lww_and_folder_sums_witness :
    alLookup (collectListBudgets ([exDupTask1] ++ [exDupTask2])) exDupTask2.list_id =
      some (mkListBudget exDupTask2 exCfB) ∧
    (mkListBudget exDupTask2 exCfB).budget = 5000 :=
  ⟨budget_lww_and_folder_sums.1 [exDupTask1] exDupTask2 exCfB
     (by decide) rfl (by decide) (by decide),
   rfl⟩

/-- C7: every folder of the output gets
`tjm = round(budget / temps_vendu_jours, 2)` when the aggregated budget
and sold days are both strictly positive, and the fixed default 690
otherwise. -/
theorem tjm_default_rule (tasks : List Task) (fns : List (String × String))
    (aggm : List (String × FolderAcc)) (fid : String) (acc : FolderAcc)
    (hagg : aggregateFolders fns tasks = .ok aggm)
    (hmem : alLookup aggm fid = some acc) :
    ∃ m, build_project_budgets tasks fns = .ok m ∧
      alLookup m fid = some (applyTjm acc) ∧
      (applyTjm acc).tjm =
        (if 0 < acc.budget ∧ 0 < acc.temps_vendu_jours then
          round2 (acc.budget / acc.temps_vendu_jours) else DEFAULT_TJM) := by
  refine ⟨aggm.map fun kv => (kv.1, applyTjm kv.2), ?_, ?_, ?_⟩
  · unfold build_project_budgets
    rw [hagg]
  · rw [alLookup_map_value, hmem]
    rfl
  · by_cases hb : 0 < acc.budget <;> by_cases ht : 0 < acc.temps_vendu_jours <;>
      simp [applyTjm, hb, ht]

/-- Witness for C7: a folder with budget 5000 and zero sold days gets
the default rate 690. -/
theorem tjm_default_rule_witness :
    (∃ m, build_project_budgets [exT7] [] = .ok m ∧
      alLookup m "G" = some (applyTjm exAcc7) ∧
      (applyTjm exAcc7).tjm =
        (if 0 < exAcc7.budget ∧ 0 < exAcc7.temps_vendu_jours then
          round2 (exAcc7.budget / exAcc7.temps_vendu_jours) else DEFAULT_TJM)) ∧
    (applyTjm exAcc7).tjm = 690 ∧ exAcc7.temps_vendu_jours = 0 :=
  ⟨tjm_default_rule [exT7] [] [("G", exAcc7)] "G" exAcc7
     (by with_unfolding_all rfl) rfl,
   by with_unfolding_all rfl, rfl⟩

/-- C8 (evaluation at the failing input): `ms_to_date` on a numeric
string of 10^23 milliseconds raises an uncaught exception — the model
returns `.error ()`, mirroring the `OverflowError` that
`datetime.fromtimestamp` raises outside the `time_t` range and that the
source's `except (ValueError, OSError)` does not catch.  Non-numeric
content, by contrast, is absorbed into absence as the claim states. -/
theorem ms_to_date_overflow_escapes :
    ms_to_date (some "100000000000000000000000") = .error () ∧
    ms_to_date (some "not a number") = .ok none :=
  ⟨by with_unfolding_all rfl, rfl⟩

/-- Counterexample to C9 as stated: for an assignee with `username`,
`email` and `id` all absent, the entry's `user` field is the string
`"None"` (Python `str(None)`), not the claimed `"(unassigned)"`
sentinel — though indeed nothing crashes. -/
theorem unassigned_sentinel_refuted :
    taskStep [] exNoIdTask = .ok (.entries [exNoIdEntry]) ∧
    exNoIdEntry.user = "None" ∧ exNoIdEntry.user ≠ "(unassigned)" :=
  ⟨by with_unfolding_all rfl, rfl, by decide⟩

/-- C9 (amended): each emitted entry's `user` is the assignee's display
key: the username when truthy, else the email when truthy, else the
string form of the id — which is `"None"` (not `"(unassigned)"`) when
the id is also absent; the builder never crashes. -/
theorem display_key_chain (fns : List (String × String)) (t : Task)
    (es : List Entry) (h : taskStep fns t = .ok (.entries es)) :
    es.map (fun e => e.user) = t.assignees.map displayKey ∧
    (∀ (a : Assignee) (s : String), a.username = some s → s ≠ "" →
      displayKey a = s) ∧
    (∀ (a : Assignee) (s : String), pyTruthy a.username = false →
      a.email = some s → s ≠ "" → displayKey a = s) ∧
    (∀ (a : Assignee) (s : String), pyTruthy a.username = false →
      pyTruthy a.email = false → a.id = some s → displayKey a = s) ∧
    (∀ a : Assignee, pyTruthy a.username = false → pyTruthy a.email = false →
      a.id = none → displayKey a = "None") := by
  obtain ⟨di, _, rfl⟩ := taskStep_entries_shape h
  refine ⟨?_, ?_, ?_, ?_, ?_⟩
  · rw [List.map_map]
    rfl
  · intro a s hu hs
    simp [displayKey, pyOr, hu, hs]
  · intro a s hu he hs
    unfold displayKey
    rw [pyOr_of_falsy hu]
    simp [pyOr, he, hs]
  · intro a s hu he hid
    unfold displayKey
    rw [pyOr_of_falsy hu, pyOr_of_falsy he, hid]
    rfl
  · intro a hu he hid
    unfold displayKey
    rw [pyOr_of_falsy hu, pyOr_of_falsy he, hid]
    rfl

/-- Witness for C9 (amended): a username-bearing assignee keeps its
username, and the all-absent assignee gets `"None"`. -/
theorem display_key_chain_witness :
    exKeyEs.map (fun e => e.user) = exKeyTask.assignees.map displayKey ∧
    displayKey { id := some "7", username := some "alice", email := none } = "alice" ∧
    displayKey { id := none, username := none, email := none } = "None" :=
  ⟨(display_key_chain [] exKeyTask exKeyEs (by with_unfolding_all rfl)).1,
   (display_key_chain [] exKeyTask exKeyEs (by with_unfolding_all rfl)).2.1
     { id := some "7", username := some "alice", email := none } "alice" rfl (by decide),
   (display_key_chain [] exKeyTask exKeyEs (by with_unfolding_all rfl)).2.2.2.2
     { id := none, username := none, email := none } rfl rfl rfl⟩

/-- C10: the per-list deduplication key is the raw `list_id` globally:
two qualifying tasks that both lack a `list_id` but sit in different
folders collide under the shared absent key — the later task overwrites
the earlier, so folder F1 receives no budget at all while F2 receives
the later task's data. -/
theorem absent_list_id_collision :
    collectListBudgets [exNoList1, exNoList2] =
      [(none, mkListBudget exNoList2 exCfB)] ∧
    build_project_budgets [exNoList1, exNoList2] [] = .ok [("F2", exFB10)] ∧
    alLookup [("F2", exFB10)] "F1" = none :=
  ⟨rfl, by with_unfolding_all rfl, rfl⟩

end ClickUp
